import Mathlib

/-
Verification development for the openmct-cesium plugin.

The embedding follows src/src/services/CesiumService.js.  That file holds two
variants of the CesiumService class separated by a document marker; line
references below use the absolute line numbers of the file.  The first variant
(lines 1-281) is the primary one; the single piece taken from the second
variant is its updateSatellite body with the retention-window pruning
(lines 443-470), embedded in the CesiumServiceB namespace.

Numeric conventions of the embedding:
* times are integer milliseconds since the Unix epoch (JulianDate.fromDate of
  a Date built from a utc millisecond count is injective, and addSeconds maps
  to integer millisecond subtraction, so Int is a faithful clock domain);
* scalar arithmetic is exact in the quadratic field Q2 = ℚ + ℚ·√2, which
  contains every number the sensor math needs (the half-angle sines and
  cosines of 90-degree rotations are ±√2/2), so rotation identities that the
  source states up to floating tolerance are settled exactly;
* external library math that the claims never inspect pointwise
  (Cartesian3.fromDegrees, Transforms.headingPitchRollQuaternion,
  globe.pick) is kept as an explicit function-valued environment GeoEnv, and
  theorems quantify over it.
-/

/-- Exact rational number num/den, kept gcd-normalized (den positive, and
num coprime to den) by every operation, so that structural equality is value
equality on every number the development ever computes.  Built directly on
Int and Nat so the kernel can evaluate it (Mathlib Rat arithmetic does not
reduce definitionally). -/
structure Frac where
  num : Int
  den : Nat
deriving DecidableEq, Repr

/-- Normalize num/den by dividing out the gcd. -/
def Frac.norm (n : Int) (d : Nat) : Frac :=
  let g := Nat.gcd n.natAbs d
  ⟨n / (g : Int), d / g⟩

instance : Add Frac := ⟨fun x y => Frac.norm (x.num * y.den + y.num * x.den) (x.den * y.den)⟩

instance : Neg Frac := ⟨fun x => ⟨-x.num, x.den⟩⟩

instance : Sub Frac := ⟨fun x y => x + -y⟩

instance : Mul Frac := ⟨fun x y => Frac.norm (x.num * y.num) (x.den * y.den)⟩

instance (n : Nat) : OfNat Frac n := ⟨⟨n, 1⟩⟩

/-- Reciprocal; the degenerate case 1/0 never arises in the embedding. -/
def Frac.inv (x : Frac) : Frac :=
  if 0 ≤ x.num then ⟨(x.den : Int), x.num.natAbs⟩ else ⟨-(x.den : Int), x.num.natAbs⟩

instance : Div Frac := ⟨fun x y => x * Frac.inv y⟩

/-- Element a + b·√2 of the quadratic field ℚ(√2).  Exact stand-in for the
floating point values produced by Cesium.Math: the only irrationals the
axis-correction table needs are ±√2/2. -/
structure Q2 where
  a : Frac
  b : Frac
deriving DecidableEq, Repr

instance : Add Q2 := ⟨fun x y => ⟨x.a + y.a, x.b + y.b⟩⟩

instance : Neg Q2 := ⟨fun x => ⟨-x.a, -x.b⟩⟩

instance : Sub Q2 := ⟨fun x y => x + -y⟩

instance : Mul Q2 := ⟨fun x y => ⟨x.a * y.a + 2 * (x.b * y.b), x.a * y.b + x.b * y.a⟩⟩

instance (n : Nat) : OfNat Q2 n := ⟨⟨OfNat.ofNat n, 0⟩⟩

/-- Field inverse of a + b·√2 (data only; no field axioms are needed). -/
def Q2.inv (x : Q2) : Q2 :=
  ⟨x.a / (x.a * x.a - 2 * (x.b * x.b)), -x.b / (x.a * x.a - 2 * (x.b * x.b))⟩

instance : Div Q2 := ⟨fun x y => x * Q2.inv y⟩

/-- The value sin(π/4) = cos(π/4) = √2/2, the half-angle sine and cosine used
by Quaternion.fromAxisAngle for the ±90-degree axis corrections. -/
def sqrtTwoHalf : Q2 := ⟨0, ⟨1, 2⟩⟩

/-- Cesium.Cartesian3 restricted to the exact scalars of the embedding. -/
structure Vec3 where
  x : Q2
  y : Q2
  z : Q2
deriving DecidableEq, Repr

/-- Cesium.Cartesian3.add. -/
def vadd (u v : Vec3) : Vec3 := ⟨u.x + v.x, u.y + v.y, u.z + v.z⟩

/-- Cesium.Cartesian3.negate. -/
def vneg (v : Vec3) : Vec3 := ⟨-v.x, -v.y, -v.z⟩

/-- Cesium.Cartesian3.multiplyByScalar. -/
def vsmul (c : Q2) (v : Vec3) : Vec3 := ⟨c * v.x, c * v.y, c * v.z⟩

def unitX : Vec3 := ⟨1, 0, 0⟩

def unitY : Vec3 := ⟨0, 1, 0⟩

def unitZ : Vec3 := ⟨0, 0, 1⟩

/-- Cesium.Quaternion with components (x, y, z, w). -/
structure Quat where
  x : Q2
  y : Q2
  z : Q2
  w : Q2
deriving DecidableEq, Repr

/-- Cesium.Quaternion.IDENTITY. -/
def quatIdentity : Quat := ⟨0, 0, 0, 1⟩

/-- Cesium.Quaternion.multiply left right: the Hamilton product, component
formulas exactly as in the Cesium source. -/
def quatMul (l r : Quat) : Quat :=
  ⟨l.w * r.x + l.x * r.w + l.y * r.z - l.z * r.y,
   l.w * r.y - l.x * r.z + l.y * r.w + l.z * r.x,
   l.w * r.z + l.x * r.y - l.y * r.x + l.z * r.w,
   l.w * r.w - l.x * r.x - l.y * r.y - l.z * r.z⟩

/-- Cesium.Quaternion.conjugate; for a unit quaternion this is its inverse. -/
def quatConj (q : Quat) : Quat := ⟨-q.x, -q.y, -q.z, q.w⟩

/-- Row-major 3x3 matrix. -/
structure Mat3 where
  m00 : Q2
  m01 : Q2
  m02 : Q2
  m10 : Q2
  m11 : Q2
  m12 : Q2
  m20 : Q2
  m21 : Q2
  m22 : Q2
deriving DecidableEq, Repr

def matId : Mat3 := ⟨1, 0, 0, 0, 1, 0, 0, 0, 1⟩

/-- Cesium.Matrix3.fromQuaternion, the exact entry formulas of the Cesium
source (homogeneous quadratic form in the components). -/
def matFromQuat (q : Quat) : Mat3 :=
  ⟨q.x * q.x - q.y * q.y - q.z * q.z + q.w * q.w,
   2 * (q.x * q.y - q.z * q.w),
   2 * (q.x * q.z + q.y * q.w),
   2 * (q.x * q.y + q.z * q.w),
   -(q.x * q.x) + q.y * q.y - q.z * q.z + q.w * q.w,
   2 * (q.y * q.z - q.x * q.w),
   2 * (q.x * q.z - q.y * q.w),
   2 * (q.y * q.z + q.x * q.w),
   -(q.x * q.x) - q.y * q.y + q.z * q.z + q.w * q.w⟩

/-- Cesium.Matrix3.multiplyByVector. -/
def matMulVec (m : Mat3) (v : Vec3) : Vec3 :=
  ⟨m.m00 * v.x + m.m01 * v.y + m.m02 * v.z,
   m.m10 * v.x + m.m11 * v.y + m.m12 * v.z,
   m.m20 * v.x + m.m21 * v.y + m.m22 * v.z⟩

/-- Matrix product, used to state that an axis correction is an exact
90-degree (order four) or 180-degree (order two) rotation. -/
def matMul (m n : Mat3) : Mat3 :=
  ⟨m.m00 * n.m00 + m.m01 * n.m10 + m.m02 * n.m20,
   m.m00 * n.m01 + m.m01 * n.m11 + m.m02 * n.m21,
   m.m00 * n.m02 + m.m01 * n.m12 + m.m02 * n.m22,
   m.m10 * n.m00 + m.m11 * n.m10 + m.m12 * n.m20,
   m.m10 * n.m01 + m.m11 * n.m11 + m.m12 * n.m21,
   m.m10 * n.m02 + m.m11 * n.m12 + m.m12 * n.m22,
   m.m20 * n.m00 + m.m21 * n.m10 + m.m22 * n.m20,
   m.m20 * n.m01 + m.m21 * n.m11 + m.m22 * n.m21,
   m.m20 * n.m02 + m.m21 * n.m12 + m.m22 * n.m22⟩

/-- Local pointing vector of the sensor switch, CesiumService.js lines
129-155: the localDir assignments (the default clause of the switch selects
UNIT_Z, matching the +Z case). -/
def localDir (direction : String) : Vec3 :=
  if direction = "+X" then unitX
  else if direction = "-X" then vneg unitX
  else if direction = "+Y" then unitY
  else if direction = "-Y" then vneg unitY
  else if direction = "-Z" then vneg unitZ
  else unitZ

/-- Axis-correction quaternion of the sensor switch, CesiumService.js lines
129-155.  Each entry is Quaternion.fromAxisAngle(axis, angle), written out
with its exact half-angle sine and cosine: fromAxisAngle(UNIT_Y, 90 deg) has
components (0, sin 45, 0, cos 45) and so on; the -Z case uses angle π, giving
(1, 0, 0, 0); the +Z case (also the default clause) is IDENTITY. -/
def axisCorrection (direction : String) : Quat :=
  if direction = "+X" then ⟨0, sqrtTwoHalf, 0, sqrtTwoHalf⟩
  else if direction = "-X" then ⟨0, -sqrtTwoHalf, 0, sqrtTwoHalf⟩
  else if direction = "+Y" then ⟨-sqrtTwoHalf, 0, 0, sqrtTwoHalf⟩
  else if direction = "-Y" then ⟨sqrtTwoHalf, 0, 0, sqrtTwoHalf⟩
  else if direction = "-Z" then ⟨1, 0, 0, 0⟩
  else quatIdentity

/-- Time in integer milliseconds since the Unix epoch.  The code converts
datum.utc through new Date and JulianDate.fromDate, an injective mapping, and
JulianDate.addSeconds(t, s) corresponds to adding 1000·s milliseconds. -/
abbrev Millis := Int

/-- Sample list of a Cesium.SampledProperty, kept sorted ascending by time.
addSample inserts by binary search and replaces the data when a sample at the
same time already exists; insertSample mirrors that contract. -/
def insertSample {α : Type} (t : Millis) (v : α) : List (Millis × α) → List (Millis × α)
  | [] => [(t, v)]
  | (t0, v0) :: rest =>
    if t < t0 then (t, v) :: (t0, v0) :: rest
    else if t = t0 then (t, v) :: rest
    else (t0, v0) :: insertSample t v rest

/-- The stored value at exactly time t, if a sample exists there. -/
def findAt {α : Type} (t : Millis) : List (Millis × α) → Option α
  | [] => none
  | (t0, v0) :: rest => if t0 = t then some v0 else findAt t rest

/-- SampledProperty.getValue.  With no samples the result is undefined.  The
backward extrapolation type is never set by the service, so Cesium default
NONE applies: times before the first sample are undefined.  At a sample time
the stored value is returned (every interpolation algorithm the service
configures passes through its data points); strictly inside the sampled range
the value comes from the interpolation algorithm, which the embedding keeps
abstract as the function argument interp; past the last sample the result is
the held last value under ExtrapolationType.HOLD and undefined under the
default NONE, selected by forwardHold. -/
def getValue {α : Type} (interp : List (Millis × α) → Millis → α) (forwardHold : Bool)
    (samples : List (Millis × α)) (t : Millis) : Option α :=
  match samples with
  | [] => none
  | first :: rest =>
    if t < first.1 then none
    else
      match findAt t (first :: rest) with
      | some v => some v
      | none =>
        let lastE := rest.getLastD first
        if t ≤ lastE.1 then some (interp (first :: rest) t)
        else if forwardHold then some lastE.2 else none

/-- Per-entity record stored in entitiesMap (CesiumService.js line 98):
the two sampled properties and lastUpdateTime, initially 0. -/
structure SatProps where
  positionSamples : List (Millis × Vec3)
  orientationSamples : List (Millis × Quat)
  lastUpdateTime : Millis
deriving DecidableEq, Repr

/-- A live telemetry datum as consumed by updateSatellite/getOrientation:
utc timestamp, geodetic position and heading/pitch/roll attitude fields.
attitudeQ carries the attitude.qx..qw fields used only by the second
variant of getOrientation. -/
structure Datum where
  utc : Millis
  lon : Q2
  lat : Q2
  alt : Q2
  heading : Q2
  pitch : Q2
  roll : Q2
  attitudeQ : Option Quat
deriving DecidableEq, Repr

/-- One normalized point returned by the SpiceWorker: t, lat, lon, alt and an
optional quaternion, exactly the shape built in SpiceWorker.js. -/
structure ProcPoint where
  t : Millis
  lat : Q2
  lon : Q2
  alt : Q2
  q : Option Quat
deriving DecidableEq, Repr

/-- A ray (origin, direction), the argument of globe.pick. -/
structure Ray where
  origin : Vec3
  direction : Vec3
deriving DecidableEq, Repr

/-- External Cesium math the claims never inspect pointwise: geodetic to
Cartesian conversion, the ENU heading-pitch-roll quaternion, and the globe
ray intersection (undefined when the ray misses the body).  Theorems
quantify over this environment. -/
structure GeoEnv where
  fromDegrees : Q2 → Q2 → Q2 → Vec3
  hprQuaternion : Vec3 → Q2 → Q2 → Q2 → Quat
  globePick : Ray → Option Vec3

/-- getOrientation, CesiumService.js lines 50-62: builds the position from
the geodetic fields and applies Transforms.headingPitchRollQuaternion. -/
def getOrientation (env : GeoEnv) (d : Datum) : Quat :=
  env.hprQuaternion (env.fromDegrees d.lon d.lat d.alt) d.heading d.pitch d.roll

/-- Association list backing this.entitiesMap (a JS Map keyed by the entity
id string). -/
def lookupEntry (id : String) : List (String × SatProps) → Option SatProps
  | [] => none
  | (k, v) :: rest => if k = id then some v else lookupEntry id rest

/-- Map.set: replace the entry for the key, or append it. -/
def setEntry (id : String) (v : SatProps) : List (String × SatProps) → List (String × SatProps)
  | [] => [(id, v)]
  | (k, w) :: rest => if k = id then (id, v) :: rest else (k, w) :: setEntry id v rest

/-- Map.delete. -/
def removeEntry (id : String) (m : List (String × SatProps)) : List (String × SatProps) :=
  m.filter (fun kv => !(kv.1 = id : Bool))

/-- The slice of viewer state the service manipulates: the clock current
time, whether some entity is camera-tracked (viewer.trackedEntity), and the
ids present in viewer.entities. -/
structure ViewerState where
  clockCurrentTime : Millis
  trackedEntity : Bool
  entityIds : List String
deriving DecidableEq, Repr

/-- The state owned by a CesiumService instance, plus the host-side
registrations the service creates: boundsActive records whether the bounds
listener registered in init is still attached (stopBounds not yet called);
compositionListeners records the entity ids whose composition add/remove
handlers were registered in addSatellite (the code never unregisters them);
workerAlive records whether the SpiceWorker has not been terminated;
historyRequests logs the ids for which addSatellite issued a telemetry
history request. -/
structure ServiceState where
  viewer : Option ViewerState
  entitiesMap : List (String × SatProps)
  boundsActive : Bool
  compositionListeners : List String
  workerAlive : Bool
  historyRequests : List String
deriving DecidableEq, Repr

/-- State right after the constructor: no viewer, empty map, stopBounds a
no-op, worker created. -/
def emptyService : ServiceState :=
  ⟨none, [], false, [], true, []⟩

/-- init, lines 24-48: a second init with a live viewer returns at once;
otherwise the viewer is created (clock free-running on the system clock) and
the bounds listener is registered. -/
def init (s : ServiceState) (clock0 : Millis) : ServiceState :=
  match s.viewer with
  | some _ => s
  | none => { s with viewer := some ⟨clock0, false, []⟩, boundsActive := true }

/-- The bounds listener body registered in init (lines 41-45): when the
listener is still attached the host fires it on a bounds change; it snaps the
clock to the bounds end only when a viewer exists and the time system is not
in real-time mode. -/
def onBoundsEvent (s : ServiceState) (isRealTimeMode : Bool) (boundsEnd : Millis) : ServiceState :=
  if s.boundsActive then
    match s.viewer with
    | none => s
    | some v =>
      if isRealTimeMode then s
      else { s with viewer := some { v with clockCurrentTime := boundsEnd } }
  else s

/-- The accepted-sample track update of updateSatellite (lines 241-246):
insert the datum into both curves and advance lastUpdateTime. -/
def acceptSample (env : GeoEnv) (props : SatProps) (d : Datum) : SatProps :=
  { positionSamples := insertSample d.utc (env.fromDegrees d.lon d.lat d.alt) props.positionSamples,
    orientationSamples := insertSample d.utc (getOrientation env d) props.orientationSamples,
    lastUpdateTime := d.utc }

/-- The clock update of updateSatellite (lines 248-251): delayedTime is the
sample time minus 1.0 seconds, and the render clock is set to it only when a
viewer exists and no entity is camera-tracked. -/
def applyClock (s : ServiceState) (t : Millis) : ServiceState :=
  match s.viewer with
  | none => s
  | some v =>
    if v.trackedEntity then s
    else { s with viewer := some { v with clockCurrentTime := t - 1000 } }

/-- updateSatellite, lines 237-252: unknown ids and datums with
utc <= lastUpdateTime return immediately; otherwise the sample is inserted
into both curves, lastUpdateTime advances, and the render clock is updated. -/
def updateSatellite (env : GeoEnv) (s : ServiceState) (id : String) (d : Datum) : ServiceState :=
  match lookupEntry id s.entitiesMap with
  | none => s
  | some props =>
    if d.utc ≤ props.lastUpdateTime then s
    else applyClock { s with entitiesMap := setEntry id (acceptSample env props d) s.entitiesMap } d.utc

/-- One worker payload point applied to the track (lines 257-261): the
position sample is always added, the orientation sample only when the point
carries a quaternion; lastUpdateTime is not consulted and not modified. -/
def procStep (env : GeoEnv) (props : SatProps) (p : ProcPoint) : SatProps :=
  { props with
    positionSamples := insertSample p.t (env.fromDegrees p.lon p.lat p.alt) props.positionSamples,
    orientationSamples :=
      match p.q with
      | some q => insertSample p.t q props.orientationSamples
      | none => props.orientationSamples }

/-- applyProcessedData, lines 254-262: worker results for ids no longer in
the map are dropped; otherwise every payload point is folded into the track.
No timestamp check is performed and lastUpdateTime stays untouched. -/
def applyProcessedData (env : GeoEnv) (s : ServiceState) (id : String)
    (payload : List ProcPoint) : ServiceState :=
  match lookupEntry id s.entitiesMap with
  | none => s
  | some props =>
    { s with entitiesMap := setEntry id (payload.foldl (procStep env) props) s.entitiesMap }

/-- addSatellite, lines 64-109: an id already in the map returns before any
effect; without a viewer it returns after building two local properties,
again with no service-visible effect; otherwise it adds the renderer entity,
stores the fresh props record (lastUpdateTime 0), registers the composition
add/remove listeners and issues the history request (whose result later
arrives through the worker). -/
def addSatellite (s : ServiceState) (id : String) : ServiceState :=
  if (lookupEntry id s.entitiesMap).isSome then s
  else
    match s.viewer with
    | none => s
    | some v =>
      { s with
        viewer := some { v with entityIds := v.entityIds ++ [id] },
        entitiesMap := setEntry id ⟨[], [], 0⟩ s.entitiesMap,
        compositionListeners := s.compositionListeners ++ [id],
        historyRequests := s.historyRequests ++ [id] }

/-- addSensor state effect, lines 111-227: without a viewer it returns at
once; otherwise both derived entities are removed by id and re-added. -/
def addSensor (s : ServiceState) (satelliteId : String) (sensorKey : String) : ServiceState :=
  match s.viewer with
  | none => s
  | some v =>
    let sensorId := satelliteId ++ "-" ++ sensorKey
    let footprintId := sensorId ++ "-footprint"
    { s with viewer := some { v with entityIds :=
        (v.entityIds.filter (fun e => !(e = sensorId : Bool) && !(e = footprintId : Bool)))
          ++ [sensorId, footprintId] } }

/-- removeSensor, lines 229-235. -/
def removeSensor (s : ServiceState) (satelliteId : String) (sensorKey : String) : ServiceState :=
  match s.viewer with
  | none => s
  | some v =>
    let sensorId := satelliteId ++ "-" ++ sensorKey
    let footprintId := sensorId ++ "-footprint"
    { s with viewer := some { v with entityIds :=
        (v.entityIds.filter (fun e => !(e = sensorId : Bool) && !(e = footprintId : Bool))) } }

/-- removeSatellite, lines 264-271: the renderer entity, the derived
entities whose ids extend the satellite id, and the map entry are removed. -/
def removeSatellite (s : ServiceState) (id : String) : ServiceState :=
  let s1 :=
    match s.viewer with
    | none => s
    | some v =>
      { s with viewer := some { v with entityIds :=
          (v.entityIds.filter (fun e => !(e = id : Bool) && !(String.startsWith e (id ++ "-")))) } }
  { s1 with entitiesMap := removeEntry id s1.entitiesMap }

/-- destroy, lines 273-278: stopBounds() detaches the bounds listener, the
viewer is destroyed and nulled, the worker is terminated and the map is
cleared.  The composition listeners registered in addSatellite are not
touched. -/
def destroy (s : ServiceState) : ServiceState :=
  { s with viewer := none, entitiesMap := [], boundsActive := false, workerAlive := false }

/-- Interpolation algorithm for position curves, kept abstract. -/
abbrev VecInterp := List (Millis × Vec3) → Millis → Vec3

/-- Interpolation algorithm for orientation curves, kept abstract. -/
abbrev QuatInterp := List (Millis × Quat) → Millis → Quat

/-- query(entityId, t) on the position curve: undefined for unknown ids,
otherwise SampledPositionProperty.getValue at t (no forward extrapolation is
configured in this variant). -/
def queryPosition (iv : VecInterp) (s : ServiceState) (id : String) (t : Millis) : Option Vec3 :=
  match lookupEntry id s.entitiesMap with
  | none => none
  | some props => getValue iv false props.positionSamples t

/-- Whether t lies strictly before the first sample (vacuously true for an
empty curve): the region where getValue is undefined regardless of the
interpolation algorithm and extrapolation policy. -/
def beforeFirstSample {α : Type} (samples : List (Millis × α)) (t : Millis) : Bool :=
  match samples with
  | [] => true
  | first :: _ => decide (t < first.1)

/-- The world pointing direction computed inside the sensor callbacks
(lines 168-170 and 202-203): the local axis rotated into world space by
Matrix3.fromQuaternion of the track orientation. -/
def worldPointing (ori : Quat) (direction : String) : Vec3 :=
  matMulVec (matFromQuat ori) (localDir direction)

/-- The sensor volume position CallbackProperty, lines 162-176: undefined
position propagates (the body returns pos when pos or ori is undefined, so an
undefined pos yields undefined and a defined pos with undefined ori yields
pos itself); otherwise the cylinder center is the track position plus the
world direction scaled by range/2. -/
def sensorPositionCallback (iv : VecInterp) (iq : QuatInterp) (props : SatProps)
    (direction : String) (range : Q2) (t : Millis) : Option Vec3 :=
  match getValue iv false props.positionSamples t, getValue iq false props.orientationSamples t with
  | none, _ => none
  | some pos, none => some pos
  | some pos, some ori => some (vadd pos (vsmul (range / 2) (worldPointing ori direction)))

/-- The sensor volume orientation CallbackProperty, lines 177-182: undefined
track orientation yields undefined; otherwise the track orientation composed
with the axis correction. -/
def sensorOrientationCallback (iq : QuatInterp) (props : SatProps)
    (direction : String) (t : Millis) : Option Quat :=
  match getValue iq false props.orientationSamples t with
  | none => none
  | some satOri => some (quatMul satOri (axisCorrection direction))

/-- The footprint position CallbackProperty, lines 197-206: undefined when
either track curve is undefined at t, otherwise globe.pick of the boresight
ray, which is undefined when the ray misses the body. -/
def footprintPositionCallback (env : GeoEnv) (iv : VecInterp) (iq : QuatInterp)
    (props : SatProps) (direction : String) (t : Millis) : Option Vec3 :=
  match getValue iv false props.positionSamples t, getValue iq false props.orientationSamples t with
  | some pos, some ori => env.globePick ⟨pos, worldPointing ori direction⟩
  | _, _ => none

/-- Where the apex (the radius-zero end) of the rendered sensor cone sits.
Cesium renders a cylinder entity centered at its position, its axis along the
z axis of its orientation, with topRadius the radius of the end at +length/2
and bottomRadius the radius of the end at -length/2.  The code (lines
183-192) sets length = range and topRadius = 0.0, so the apex is the +z end:
center + rotate(orientation, (0, 0, range/2)). -/
def sensorApexCallback (iv : VecInterp) (iq : QuatInterp) (props : SatProps)
    (direction : String) (range : Q2) (t : Millis) : Option Vec3 :=
  match sensorPositionCallback iv iq props direction range t,
        sensorOrientationCallback iq props direction t with
  | some center, some ori => some (vadd center (matMulVec (matFromQuat ori) ⟨0, 0, range / 2⟩))
  | _, _ => none

namespace CesiumServiceB

/-- getOrientation of the second variant (lines 354-375): a quaternion
attitude is used directly when present, otherwise the heading-pitch-roll
path applies. -/
def getOrientation (env : GeoEnv) (d : Datum) : Quat :=
  match d.attitudeQ with
  | some q => q
  | none => env.hprQuaternion (env.fromDegrees d.lon d.lat d.alt) d.heading d.pitch d.roll

/-- Milliseconds of the ISO date 1900-01-01T00:00:00Z, the start of the
removal interval built at line 462. -/
def epoch1900 : Millis := -2208988800000

/-- SampledProperty.removeSamples over a TimeInterval with both endpoints
included (lines 461-468): every sample whose time lies inside the closed
interval is removed. -/
def removeSamples {α : Type} (startT stopT : Millis) (samples : List (Millis × α)) :
    List (Millis × α) :=
  samples.filter (fun sm => !(decide (startT ≤ sm.1) && decide (sm.1 ≤ stopT)))

/-- updateSatellite of the second variant (lines 443-470): the staleness
check and sample insertion as in the first variant, followed by the memory
management step: both curves drop every sample in the closed interval from
1900-01-01 to pruneTime = sample time minus 3600 seconds. -/
def updateSatellite (env : GeoEnv) (props : SatProps) (d : Datum) : SatProps :=
  if d.utc ≤ props.lastUpdateTime then props
  else
    { positionSamples :=
        removeSamples epoch1900 (d.utc - 3600000)
          (insertSample d.utc (env.fromDegrees d.lon d.lat d.alt) props.positionSamples),
      orientationSamples :=
        removeSamples epoch1900 (d.utc - 3600000)
          (insertSample d.utc (getOrientation env d) props.orientationSamples),
      lastUpdateTime := d.utc }

end CesiumServiceB

/-- One ingestion event: a live datum (updateSatellite) or a bulk worker
payload (applyProcessedData). -/
inductive IngestOp where
  | live (d : Datum)
  | bulk (payload : List ProcPoint)

/-- Apply one ingestion event for the given entity. -/
def applyIngest (env : GeoEnv) (id : String) (s : ServiceState) : IngestOp → ServiceState
  | IngestOp.live d => updateSatellite env s id d
  | IngestOp.bulk payload => applyProcessedData env s id payload

/-- Run an arbitrary interleaving of ingestion events. -/
def runOps (env : GeoEnv) (id : String) (s : ServiceState) : List IngestOp → ServiceState
  | [] => s
  | op :: rest => runOps env id (applyIngest env id s op) rest

/-- Utc timestamps carried by a live event list. -/
def liveTimes (ds : List Datum) : List Millis :=
  ds.map (fun d => d.utc)

/-- Concrete environment for witnesses and counterexamples: the claims under
test never depend on the numeric content of the external math, so plain
injections serve.  globePick always misses. -/
def testEnv : GeoEnv :=
  { fromDegrees := fun lon lat alt => ⟨lon, lat, alt⟩,
    hprQuaternion := fun _ h p r => ⟨h, p, r, 1⟩,
    globePick := fun _ => none }

/-- Trivial position interpolation used to instantiate interp binders. -/
def constVecInterp : VecInterp := fun _ _ => ⟨0, 0, 0⟩

/-- Trivial orientation interpolation used to instantiate interp binders. -/
def constQuatInterp : QuatInterp := fun _ _ => quatIdentity

/-- Track with lastSampleTime 100, the Scenario B fixture. -/
def propsB : SatProps := ⟨[(100, ⟨0, 0, 0⟩)], [(100, quatIdentity)], 100⟩

/-- Service owning the Scenario B track. -/
def stateB : ServiceState :=
  ⟨some ⟨0, false, ["sat"]⟩, [("sat", propsB)], true, ["sat"], true, ["sat"]⟩

/-- A stale datum, timestamp 50 against lastSampleTime 100. -/
def datumStale : Datum := ⟨50, 1, 2, 3, 0, 0, 0, none⟩

/-- Fresh-track service used by the bulk-ingestion counterexample. -/
def stateFresh : ServiceState :=
  ⟨some ⟨0, false, ["sat"]⟩, [("sat", ⟨[], [], 0⟩)], true, ["sat"], true, ["sat"]⟩

/-- One worker point at t = 100. -/
def point100 : ProcPoint := ⟨100, 1, 2, 3, none⟩

/-- Service with a camera-tracked entity (viewer.trackedEntity set) and a
fresh track. -/
def stateTracked : ServiceState :=
  ⟨some ⟨0, true, ["sat"]⟩, [("sat", ⟨[], [], 0⟩)], true, ["sat"], true, ["sat"]⟩

/-- An acceptable datum at t = 5000. -/
def datum5000 : Datum := ⟨5000, 1, 2, 3, 0, 0, 0, none⟩

/-- Scenario C track: one sample at t = 0 with the parent at the origin and
identity orientation. -/
def propsOrigin : SatProps := ⟨[(0, ⟨0, 0, 0⟩)], [(0, quatIdentity)], 0⟩

/-- Track for the pruning counterexample: one sample exactly at what will be
the pruning horizon. -/
def propsPrune : SatProps := ⟨[(0, ⟨0, 0, 0⟩)], [(0, quatIdentity)], 0⟩

/-- A datum exactly one retention window after the existing sample. -/
def datumHour : Datum := ⟨3600000, 1, 2, 3, 0, 0, 0, none⟩

/-- Track whose first sample sits at t = 10, for the before-first-sample
queries. -/
def propsLate : SatProps := ⟨[(10, ⟨1, 1, 1⟩)], [(10, quatIdentity)], 10⟩

/-- Rotation matrix of an axis-correction entry. -/
def axisMat (direction : String) : Mat3 := matFromQuat (axisCorrection direction)

theorem lookup_setEntry_self (k : String) (v : SatProps) :
    ∀ m : List (String × SatProps), lookupEntry k (setEntry k v m) = some v
  | [] => by simp [setEntry, lookupEntry]
  | (k0, w) :: rest => by
    by_cases h : k0 = k
    · simp [setEntry, lookupEntry, h]
    · simp [setEntry, lookupEntry, h, lookup_setEntry_self k v rest]

theorem lookup_removeEntry_self (k : String) :
    ∀ m : List (String × SatProps), lookupEntry k (removeEntry k m) = none
  | [] => rfl
  | (k0, w) :: rest => by
    by_cases h : k0 = k
    · simpa [removeEntry, List.filter_cons, h] using lookup_removeEntry_self k rest
    · simpa [removeEntry, List.filter_cons, h, lookupEntry] using lookup_removeEntry_self k rest

theorem applyClock_entitiesMap (s : ServiceState) (t : Millis) :
    (applyClock s t).entitiesMap = s.entitiesMap := by
  unfold applyClock
  cases s.viewer with
  | none => rfl
  | some v =>
    by_cases h : v.trackedEntity
    · simp [h]
    · simp [h]

theorem update_of_missing (env : GeoEnv) (s : ServiceState) (id : String) (d : Datum)
    (h : lookupEntry id s.entitiesMap = none) :
    updateSatellite env s id d = s := by
  unfold updateSatellite
  rw [h]

theorem update_of_stale (env : GeoEnv) (s : ServiceState) (id : String) (d : Datum)
    (p : SatProps) (h : lookupEntry id s.entitiesMap = some p)
    (hle : d.utc ≤ p.lastUpdateTime) :
    updateSatellite env s id d = s := by
  unfold updateSatellite
  rw [h]
  simp [hle]

theorem update_lookup_accept (env : GeoEnv) (s : ServiceState) (id : String) (d : Datum)
    (p : SatProps) (h : lookupEntry id s.entitiesMap = some p)
    (hlt : p.lastUpdateTime < d.utc) :
    lookupEntry id (updateSatellite env s id d).entitiesMap = some (acceptSample env p d) := by
  unfold updateSatellite
  rw [h]
  simp only [not_le.mpr hlt, if_false]
  rw [applyClock_entitiesMap]
  exact lookup_setEntry_self id (acceptSample env p d) s.entitiesMap

theorem foldl_procStep_last (env : GeoEnv) :
    ∀ (payload : List ProcPoint) (p : SatProps),
      (payload.foldl (procStep env) p).lastUpdateTime = p.lastUpdateTime
  | [], p => rfl
  | pt :: rest, p => by
    rw [List.foldl_cons]
    exact foldl_procStep_last env rest (procStep env p pt)

theorem apply_lookup (env : GeoEnv) (s : ServiceState) (id : String)
    (payload : List ProcPoint) (p : SatProps)
    (h : lookupEntry id s.entitiesMap = some p) :
    lookupEntry id (applyProcessedData env s id payload).entitiesMap =
      some (payload.foldl (procStep env) p) := by
  unfold applyProcessedData
  rw [h]
  exact lookup_setEntry_self id (payload.foldl (procStep env) p) s.entitiesMap

theorem update_lookup_max (env : GeoEnv) (s : ServiceState) (id : String) (d : Datum)
    (p : SatProps) (h : lookupEntry id s.entitiesMap = some p) :
    ∃ p', lookupEntry id (updateSatellite env s id d).entitiesMap = some p' ∧
      p'.lastUpdateTime = max p.lastUpdateTime d.utc := by
  by_cases hle : d.utc ≤ p.lastUpdateTime
  · refine ⟨p, ?_, ?_⟩
    · rw [update_of_stale env s id d p h hle, h]
    · exact (max_eq_left hle).symm
  · refine ⟨acceptSample env p d, update_lookup_accept env s id d p h (lt_of_not_ge hle), ?_⟩
    exact (max_eq_right (le_of_lt (lt_of_not_ge hle))).symm

theorem update_ne_of_accept (env : GeoEnv) (s : ServiceState) (id : String) (d : Datum)
    (p : SatProps) (h : lookupEntry id s.entitiesMap = some p)
    (hlt : p.lastUpdateTime < d.utc) :
    updateSatellite env s id d ≠ s := by
  intro heq
  have hacc := update_lookup_accept env s id d p h hlt
  rw [heq, h] at hacc
  have : p.lastUpdateTime = d.utc := by
    have h2 := congrArg (fun o => (Option.getD o p).lastUpdateTime) hacc
    simpa [acceptSample] using h2
  exact absurd this (ne_of_lt hlt)

theorem update_eq_self_iff (env : GeoEnv) (s : ServiceState) (id : String) (d : Datum)
    (p : SatProps) (h : lookupEntry id s.entitiesMap = some p) :
    updateSatellite env s id d = s ↔ d.utc ≤ p.lastUpdateTime := by
  constructor
  · intro heq
    by_contra hgt
    exact update_ne_of_accept env s id d p h (lt_of_not_ge hgt) heq
  · exact update_of_stale env s id d p h

theorem getValue_none_of_beforeFirst {α : Type} (interp : List (Millis × α) → Millis → α)
    (hold : Bool) (samples : List (Millis × α)) (t : Millis)
    (h : beforeFirstSample samples t = true) :
    getValue interp hold samples t = none := by
  cases samples with
  | nil => rfl
  | cons first rest =>
    have hlt : t < first.1 := by simpa [beforeFirstSample] using h
    simp only [getValue]
    rw [if_pos hlt]

/-- C5: the axisCorrection table of addSensor maps each of the six signed
principal axes to an exact rotation taking the canonical +Z-pointing
primitive onto the requested axis.  The +Z entry is the identity quaternion;
the -Z entry is exactly the 180-degree rotation about X (its matrix squares
to the identity and differs from it); each of the four lateral entries is an
exact 90-degree rotation (its matrix has order four: the square differs from
the identity, the fourth power is the identity); every entry rotates unit Z
onto the localDir of its axis; and every entry composed with its own inverse
(the conjugate of a unit quaternion) is exactly the identity — exactly, with
no floating tolerance, because the arithmetic is carried out in ℚ(√2). -/
theorem c5_axisCorrection_exact_rotations :
    axisCorrection "+Z" = quatIdentity ∧
    axisMat "-Z" = ⟨1, 0, 0, 0, -1, 0, 0, 0, -1⟩ ∧
    (matMul (axisMat "-Z") (axisMat "-Z") = matId ∧ axisMat "-Z" ≠ matId) ∧
    (matMulVec (axisMat "+X") unitZ = localDir "+X" ∧
     matMulVec (axisMat "-X") unitZ = localDir "-X" ∧
     matMulVec (axisMat "+Y") unitZ = localDir "+Y" ∧
     matMulVec (axisMat "-Y") unitZ = localDir "-Y" ∧
     matMulVec (axisMat "+Z") unitZ = localDir "+Z" ∧
     matMulVec (axisMat "-Z") unitZ = localDir "-Z") ∧
    (quatMul (axisCorrection "+X") (quatConj (axisCorrection "+X")) = quatIdentity ∧
     quatMul (axisCorrection "-X") (quatConj (axisCorrection "-X")) = quatIdentity ∧
     quatMul (axisCorrection "+Y") (quatConj (axisCorrection "+Y")) = quatIdentity ∧
     quatMul (axisCorrection "-Y") (quatConj (axisCorrection "-Y")) = quatIdentity ∧
     quatMul (axisCorrection "+Z") (quatConj (axisCorrection "+Z")) = quatIdentity ∧
     quatMul (axisCorrection "-Z") (quatConj (axisCorrection "-Z")) = quatIdentity) ∧
    (matMul (axisMat "+X") (axisMat "+X") ≠ matId ∧
     matMul (matMul (axisMat "+X") (axisMat "+X")) (matMul (axisMat "+X") (axisMat "+X")) = matId) ∧
    (matMul (axisMat "-X") (axisMat "-X") ≠ matId ∧
     matMul (matMul (axisMat "-X") (axisMat "-X")) (matMul (axisMat "-X") (axisMat "-X")) = matId) ∧
    (matMul (axisMat "+Y") (axisMat "+Y") ≠ matId ∧
     matMul (matMul (axisMat "+Y") (axisMat "+Y")) (matMul (axisMat "+Y") (axisMat "+Y")) = matId) ∧
    (matMul (axisMat "-Y") (axisMat "-Y") ≠ matId ∧
     matMul (matMul (axisMat "-Y") (axisMat "-Y")) (matMul (axisMat "-Y") (axisMat "-Y")) = matId) := by
  decide

/-- C4: evaluation of the derived sensor geometry at the Scenario C failing
input (range 1000, axis +Z, parent at the origin with identity orientation,
queried at the sample time).  The pose equations of the claim hold: the
shape center is at distance 500 along +Z and the orientation is the
identity.  But the cone apex is not at the origin: the code gives the
cylinder topRadius = 0, and a Cesium cylinder is centered on its position
with the top end at +length/2 along its oriented z axis, so the apex
evaluates to (0, 0, 1000) — the far end of the cone, 1000 m from the
parent, while the wide base sits at the parent.  This contradicts the inline
comment at lines 172-173, which says the offset is there so that the pointy
end stays at the satellite position. -/
theorem c4_sensor_apex_at_far_end :
    sensorPositionCallback constVecInterp constQuatInterp propsOrigin "+Z" 1000 0 =
      some ⟨0, 0, 500⟩ ∧
    sensorOrientationCallback constQuatInterp propsOrigin "+Z" 0 = some quatIdentity ∧
    sensorApexCallback constVecInterp constQuatInterp propsOrigin "+Z" 1000 0 =
      some ⟨0, 0, 1000⟩ ∧
    (⟨0, 0, 1000⟩ : Vec3) ≠ ⟨0, 0, 0⟩ := by
  decide

/-- C8: ingesting the identical datum twice in succession is a no-op on the
second call, for every service state, entity id and datum: the first call
either rejects (leaving the state unchanged, so the second call rejects the
same way) or accepts and sets lastUpdateTime to the datum timestamp, making
the second call fail the strict-greater test. -/
theorem c8_live_ingest_idempotent (env : GeoEnv) (s : ServiceState) (id : String) (d : Datum) :
    updateSatellite env (updateSatellite env s id d) id d = updateSatellite env s id d := by
  cases h : lookupEntry id s.entitiesMap with
  | none =>
    have e1 : updateSatellite env s id d = s := update_of_missing env s id d h
    rw [e1, e1]
  | some p =>
    by_cases hle : d.utc ≤ p.lastUpdateTime
    · have e1 : updateSatellite env s id d = s := update_of_stale env s id d p h hle
      rw [e1, e1]
    · have h2 : lookupEntry id (updateSatellite env s id d).entitiesMap =
          some (acceptSample env p d) :=
        update_lookup_accept env s id d p h (lt_of_not_ge hle)
      exact update_of_stale env (updateSatellite env s id d) id d (acceptSample env p d) h2
        (le_refl d.utc)

/-- C1 counterexample: the code maintains no rejection counter.  A rejected
ingestLive call (timestamp 50 against lastSampleTime 100) returns a service
state identical to the one before the call — nothing anywhere in the program
state records the drop, so the "counted" part of the claim is false; the
guard at line 239 returns without touching anything. -/
theorem c1_rejected_sample_not_counted :
    datumStale.utc ≤ propsB.lastUpdateTime ∧
    updateSatellite testEnv stateB "sat" datumStale = stateB :=
  ⟨by decide, rfl⟩

/-- C1 as amended: for every track, a live sample is accepted iff its
timestamp is strictly greater than lastSampleTime; a rejected sample is
silently dropped with no record kept (the whole service state, hence every
curve, lastSampleTime and query result, is unchanged); an accepted sample is
inserted into both curves and advances lastSampleTime to its timestamp. -/
theorem c1_live_ingest_accept_iff (env : GeoEnv) (s : ServiceState) (id : String) (d : Datum)
    (p : SatProps) (h : lookupEntry id s.entitiesMap = some p) :
    (d.utc ≤ p.lastUpdateTime →
      updateSatellite env s id d = s ∧
      ∀ (iv : VecInterp) (t : Millis),
        queryPosition iv (updateSatellite env s id d) id t = queryPosition iv s id t) ∧
    (p.lastUpdateTime < d.utc →
      lookupEntry id (updateSatellite env s id d).entitiesMap = some (acceptSample env p d) ∧
      (acceptSample env p d).lastUpdateTime = d.utc) ∧
    (updateSatellite env s id d = s ↔ d.utc ≤ p.lastUpdateTime) := by
  refine ⟨?_, ?_, update_eq_self_iff env s id d p h⟩
  · intro hle
    have e1 : updateSatellite env s id d = s := update_of_stale env s id d p h hle
    exact ⟨e1, fun iv t => by rw [e1]⟩
  · intro hlt
    exact ⟨update_lookup_accept env s id d p h hlt, rfl⟩

/-- C1 witness: the amended theorem applied to the Scenario B fixture. -/
theorem c1_live_ingest_accept_iff_witness :
    lookupEntry "sat" stateB.entitiesMap = some propsB ∧
    ((datumStale.utc ≤ propsB.lastUpdateTime →
      updateSatellite testEnv stateB "sat" datumStale = stateB ∧
      ∀ (iv : VecInterp) (t : Millis),
        queryPosition iv (updateSatellite testEnv stateB "sat" datumStale) "sat" t =
          queryPosition iv stateB "sat" t) ∧
    (propsB.lastUpdateTime < datumStale.utc →
      lookupEntry "sat" (updateSatellite testEnv stateB "sat" datumStale).entitiesMap =
        some (acceptSample testEnv propsB datumStale) ∧
      (acceptSample testEnv propsB datumStale).lastUpdateTime = datumStale.utc) ∧
    (updateSatellite testEnv stateB "sat" datumStale = stateB ↔
      datumStale.utc ≤ propsB.lastUpdateTime)) :=
  ⟨rfl, c1_live_ingest_accept_iff testEnv stateB "sat" datumStale propsB rfl⟩

theorem applyIngest_lookup_mono (env : GeoEnv) (id : String) (s : ServiceState)
    (op : IngestOp) (p : SatProps) (h : lookupEntry id s.entitiesMap = some p) :
    ∃ p', lookupEntry id (applyIngest env id s op).entitiesMap = some p' ∧
      p.lastUpdateTime ≤ p'.lastUpdateTime := by
  cases op with
  | live d =>
    obtain ⟨p', hp', hmax⟩ := update_lookup_max env s id d p h
    exact ⟨p', hp', by rw [hmax]; exact le_max_left _ _⟩
  | bulk payload =>
    refine ⟨payload.foldl (procStep env) p, apply_lookup env s id payload p h, ?_⟩
    rw [foldl_procStep_last]

theorem runOps_mono (env : GeoEnv) (id : String) :
    ∀ (ops : List IngestOp) (s : ServiceState) (p : SatProps),
      lookupEntry id s.entitiesMap = some p →
      ∃ p', lookupEntry id (runOps env id s ops).entitiesMap = some p' ∧
        p.lastUpdateTime ≤ p'.lastUpdateTime
  | [], s, p, h => ⟨p, h, le_refl _⟩
  | op :: rest, s, p, h => by
    obtain ⟨p1, h1, hle1⟩ := applyIngest_lookup_mono env id s op p h
    obtain ⟨p', h', hle'⟩ := runOps_mono env id rest (applyIngest env id s op) p1 h1
    exact ⟨p', h', le_trans hle1 hle'⟩

theorem runLive_last (env : GeoEnv) (id : String) :
    ∀ (ds : List Datum) (s : ServiceState) (p : SatProps),
      lookupEntry id s.entitiesMap = some p →
      ∃ p', lookupEntry id (runOps env id s (ds.map IngestOp.live)).entitiesMap = some p' ∧
        p'.lastUpdateTime = (liveTimes ds).foldl max p.lastUpdateTime
  | [], s, p, h => ⟨p, h, rfl⟩
  | d :: rest, s, p, h => by
    obtain ⟨p1, h1, hmax⟩ := update_lookup_max env s id d p h
    obtain ⟨p', h', hfold⟩ := runLive_last env id rest (updateSatellite env s id d) p1 h1
    refine ⟨p', h', ?_⟩
    rw [hfold, hmax]
    simp [liveTimes, List.foldl_cons, max_comm]

/-- C2 counterexample: bulk ingestion through applyProcessedData neither
checks nor advances lastSampleTime.  First run: on a fresh track
(lastSampleTime 0) a bulk payload carrying t = 100 is ingested into the
position curve, yet lastSampleTime stays 0 instead of the maximum ingested
timestamp 100.  Second run: after a live sample at t = 100 raises the
maximum, a bulk sample at t = 50 <= 100 is still inserted into the curve
instead of being rejected. -/
theorem c2_bulk_ingest_breaks_max :
    lookupEntry "sat"
        (runOps testEnv "sat" stateFresh [IngestOp.bulk [point100]]).entitiesMap =
      some ⟨[(100, ⟨2, 1, 3⟩)], [], 0⟩ ∧
    ((0 : Millis) ≠ 100) ∧
    lookupEntry "sat"
        (runOps testEnv "sat" stateFresh
          [IngestOp.live ⟨100, 1, 2, 3, 0, 0, 0, none⟩,
           IngestOp.bulk [⟨50, 1, 2, 3, none⟩]]).entitiesMap =
      some ⟨[(50, ⟨2, 1, 3⟩), (100, ⟨1, 2, 3⟩)], [(100, ⟨0, 0, 0, 1⟩)], 100⟩ :=
  ⟨rfl, by decide, rfl⟩

/-- C2 as amended: lastSampleTime is monotonically non-decreasing over every
interleaving of live and bulk ingestion events; over live events alone it
equals the running maximum of its initial value and the ingested timestamps,
and a live sample leaves the state unchanged exactly when its timestamp is
at most the current lastSampleTime.  Bulk events preserve lastSampleTime
without consulting it, so the max-timestamp and rejection properties of the
original claim hold only for the live path. -/
theorem c2_lastSampleTime_monotone (env : GeoEnv) (id : String) :
    (∀ (ops : List IngestOp) (s : ServiceState) (p : SatProps),
      lookupEntry id s.entitiesMap = some p →
      ∃ p', lookupEntry id (runOps env id s ops).entitiesMap = some p' ∧
        p.lastUpdateTime ≤ p'.lastUpdateTime) ∧
    (∀ (ds : List Datum) (s : ServiceState) (p : SatProps),
      lookupEntry id s.entitiesMap = some p →
      ∃ p', lookupEntry id (runOps env id s (ds.map IngestOp.live)).entitiesMap = some p' ∧
        p'.lastUpdateTime = (liveTimes ds).foldl max p.lastUpdateTime) ∧
    (∀ (s : ServiceState) (d : Datum) (p : SatProps),
      lookupEntry id s.entitiesMap = some p →
      (updateSatellite env s id d = s ↔ d.utc ≤ p.lastUpdateTime)) :=
  ⟨fun ops s p h => runOps_mono env id ops s p h,
   fun ds s p h => runLive_last env id ds s p h,
   fun s d p h => update_eq_self_iff env s id d p h⟩

/-- C2 witness: the amended theorem applied on a fresh track to a live
sample at t = 5000 and to the singleton interleavings around it. -/
theorem c2_lastSampleTime_monotone_witness :
    lookupEntry "sat" stateFresh.entitiesMap = some ⟨[], [], 0⟩ ∧
    (∃ p', lookupEntry "sat"
        (runOps testEnv "sat" stateFresh [IngestOp.live datum5000]).entitiesMap = some p' ∧
      (⟨[], [], 0⟩ : SatProps).lastUpdateTime ≤ p'.lastUpdateTime) ∧
    (∃ p', lookupEntry "sat"
        (runOps testEnv "sat" stateFresh ([datum5000].map IngestOp.live)).entitiesMap = some p' ∧
      p'.lastUpdateTime = (liveTimes [datum5000]).foldl max (⟨[], [], 0⟩ : SatProps).lastUpdateTime) ∧
    (updateSatellite testEnv stateFresh "sat" datum5000 = stateFresh ↔
      datum5000.utc ≤ (⟨[], [], 0⟩ : SatProps).lastUpdateTime) :=
  ⟨rfl,
   (c2_lastSampleTime_monotone testEnv "sat").1 [IngestOp.live datum5000] stateFresh ⟨[], [], 0⟩ rfl,
   (c2_lastSampleTime_monotone testEnv "sat").2.1 [datum5000] stateFresh ⟨[], [], 0⟩ rfl,
   (c2_lastSampleTime_monotone testEnv "sat").2.2 stateFresh datum5000 ⟨[], [], 0⟩ rfl⟩

theorem applyClock_viewer (s : ServiceState) (t : Millis) (v : ViewerState)
    (hv : s.viewer = some v) :
    (applyClock s t).viewer =
      if v.trackedEntity then some v else some { v with clockCurrentTime := t - 1000 } := by
  unfold applyClock
  simp only [hv]
  by_cases h : v.trackedEntity = true
  · simp only [if_pos h, hv]
  · simp only [if_neg h]

theorem mem_removeSamples {α : Type} (startT stopT : Millis) (samples : List (Millis × α))
    (sm : Millis × α) :
    sm ∈ CesiumServiceB.removeSamples startT stopT samples ↔
      sm ∈ samples ∧ ¬(startT ≤ sm.1 ∧ sm.1 ≤ stopT) := by
  unfold CesiumServiceB.removeSamples
  rw [List.mem_filter]
  constructor
  · rintro ⟨h1, h2⟩
    refine ⟨h1, fun hc => ?_⟩
    rw [decide_eq_true hc.1, decide_eq_true hc.2] at h2
    simp at h2
  · rintro ⟨h1, h2⟩
    refine ⟨h1, ?_⟩
    by_cases ha : startT ≤ sm.1
    · by_cases hb : sm.1 ≤ stopT
      · exact absurd ⟨ha, hb⟩ h2
      · simp [hb]
    · simp [ha]

/-- C3 counterexample: with a camera-tracked entity
(viewer.trackedEntity set, line 249) an accepted live sample at t = 5000 is
inserted into the track, but the render clock stays at its old value 0
instead of the claimed latestAcceptedSampleTime minus lag = 4000.  The lag
is also the hardcoded literal -1.0 seconds at line 248, not an externally
configurable constant, and the update is not conditioned on the time
system being in real-time mode. -/
theorem c3_tracked_entity_clock_frozen :
    (updateSatellite testEnv stateTracked "sat" datum5000).viewer = some ⟨0, true, ["sat"]⟩ ∧
    ((0 : Millis) ≠ datum5000.utc - 1000) ∧
    lookupEntry "sat" (updateSatellite testEnv stateTracked "sat" datum5000).entitiesMap =
      some (acceptSample testEnv ⟨[], [], 0⟩ datum5000) :=
  ⟨rfl, by decide, rfl⟩

/-- C3 as amended: after every accepted live sample, when a viewer exists
and no entity is camera-tracked, the render clock is set to the sample time
minus the hardcoded one-second lag (so it never advances ahead of the latest
accepted sample at that point); when an entity is camera-tracked the clock
is left untouched.  The update happens regardless of the time-system mode,
and the lag is the fixed literal 1000 ms, not a configurable value. -/
theorem c3_clock_lag_on_accept (env : GeoEnv) (s : ServiceState) (id : String) (d : Datum)
    (p : SatProps) (v : ViewerState)
    (hp : lookupEntry id s.entitiesMap = some p)
    (hacc : p.lastUpdateTime < d.utc)
    (hv : s.viewer = some v) :
    (v.trackedEntity = false →
      (updateSatellite env s id d).viewer = some { v with clockCurrentTime := d.utc - 1000 } ∧
      d.utc - 1000 < d.utc) ∧
    (v.trackedEntity = true →
      (updateSatellite env s id d).viewer = some v) := by
  have key : (updateSatellite env s id d).viewer =
      if v.trackedEntity then some v else some { v with clockCurrentTime := d.utc - 1000 } := by
    unfold updateSatellite
    simp only [hp]
    rw [if_neg (not_le.mpr hacc)]
    exact applyClock_viewer _ d.utc v hv
  constructor
  · intro htr
    rw [key, htr]
    exact ⟨rfl, sub_lt_self d.utc (by norm_num)⟩
  · intro htr
    rw [key, htr]
    rfl

/-- C3 witness: the amended theorem on an untracked viewer and a fresh
track, for the accepted sample at t = 5000. -/
theorem c3_clock_lag_on_accept_witness :
    lookupEntry "sat" stateFresh.entitiesMap = some ⟨[], [], 0⟩ ∧
    (⟨[], [], 0⟩ : SatProps).lastUpdateTime < datum5000.utc ∧
    stateFresh.viewer = some ⟨0, false, ["sat"]⟩ ∧
    (((⟨0, false, ["sat"]⟩ : ViewerState).trackedEntity = false →
      (updateSatellite testEnv stateFresh "sat" datum5000).viewer =
        some ⟨datum5000.utc - 1000, false, ["sat"]⟩ ∧
      datum5000.utc - 1000 < datum5000.utc) ∧
    ((⟨0, false, ["sat"]⟩ : ViewerState).trackedEntity = true →
      (updateSatellite testEnv stateFresh "sat" datum5000).viewer = some ⟨0, false, ["sat"]⟩)) :=
  ⟨rfl, by decide, rfl,
   c3_clock_lag_on_accept testEnv stateFresh "sat" datum5000 ⟨[], [], 0⟩ ⟨0, false, ["sat"]⟩
     rfl (by decide) rfl⟩

/-- C6 counterexample: pruning is stop-inclusive, not strict.  The track
holds a sample at t = 0; the accepted live sample at t = 3600000 sets the
horizon to exactly 0; the claim says only samples strictly before the
horizon are removed, so the t = 0 sample should survive, yet the code
removes it (the TimeInterval at lines 461-466 has isStopIncluded true). -/
theorem c6_prune_removes_sample_at_horizon :
    (0, (⟨0, 0, 0⟩ : Vec3)) ∈ propsPrune.positionSamples ∧
    datumHour.utc - 3600000 = 0 ∧
    ¬((0 : Millis) < 0) ∧
    (CesiumServiceB.updateSatellite testEnv propsPrune datumHour).positionSamples =
      [(3600000, ⟨1, 2, 3⟩)] :=
  ⟨by decide, by decide, by decide, rfl⟩

/-- C6 as amended: on each accepted live sample the second-variant
updateSatellite removes from both curves exactly the samples whose
timestamp lies in the closed interval from 1900-01-01 to
currentSampleTime - 3600 s (horizon inclusive, so also the sample exactly
at the horizon), after inserting the new sample; the retention window is
the hardcoded 3600 seconds with no minimumBracketWindow guard. -/
theorem c6_prune_closed_interval (env : GeoEnv) (props : SatProps) (d : Datum)
    (hacc : props.lastUpdateTime < d.utc) :
    (∀ tv : Millis × Vec3,
      tv ∈ (CesiumServiceB.updateSatellite env props d).positionSamples ↔
        (tv ∈ insertSample d.utc (env.fromDegrees d.lon d.lat d.alt) props.positionSamples ∧
         ¬(CesiumServiceB.epoch1900 ≤ tv.1 ∧ tv.1 ≤ d.utc - 3600000))) ∧
    (∀ tq : Millis × Quat,
      tq ∈ (CesiumServiceB.updateSatellite env props d).orientationSamples ↔
        (tq ∈ insertSample d.utc (CesiumServiceB.getOrientation env d) props.orientationSamples ∧
         ¬(CesiumServiceB.epoch1900 ≤ tq.1 ∧ tq.1 ≤ d.utc - 3600000))) ∧
    (CesiumServiceB.updateSatellite env props d).lastUpdateTime = d.utc := by
  unfold CesiumServiceB.updateSatellite
  rw [if_neg (not_le.mpr hacc)]
  refine ⟨?_, ?_, rfl⟩
  · intro tv
    rw [mem_removeSamples]
  · intro tq
    rw [mem_removeSamples]

/-- C6 witness: the amended theorem on the horizon fixture. -/
theorem c6_prune_closed_interval_witness :
    propsPrune.lastUpdateTime < datumHour.utc ∧
    ((∀ tv : Millis × Vec3,
      tv ∈ (CesiumServiceB.updateSatellite testEnv propsPrune datumHour).positionSamples ↔
        (tv ∈ insertSample datumHour.utc
            (testEnv.fromDegrees datumHour.lon datumHour.lat datumHour.alt)
            propsPrune.positionSamples ∧
         ¬(CesiumServiceB.epoch1900 ≤ tv.1 ∧ tv.1 ≤ datumHour.utc - 3600000))) ∧
    (∀ tq : Millis × Quat,
      tq ∈ (CesiumServiceB.updateSatellite testEnv propsPrune datumHour).orientationSamples ↔
        (tq ∈ insertSample datumHour.utc
            (CesiumServiceB.getOrientation testEnv datumHour)
            propsPrune.orientationSamples ∧
         ¬(CesiumServiceB.epoch1900 ≤ tq.1 ∧ tq.1 ≤ datumHour.utc - 3600000))) ∧
    (CesiumServiceB.updateSatellite testEnv propsPrune datumHour).lastUpdateTime = datumHour.utc) :=
  ⟨by decide, c6_prune_closed_interval testEnv propsPrune datumHour (by decide)⟩

/-- C7: before the first sample of the track both derived positions are the
explicit undefined value, and a footprint whose boresight ray misses the
globe is the explicit undefined value as well; every callback is a total
function of the state, so no case raises an exception. -/
theorem c7_undefined_is_explicit :
    (∀ (iv : VecInterp) (iq : QuatInterp) (props : SatProps) (direction : String)
        (range : Q2) (t : Millis),
      beforeFirstSample props.positionSamples t = true →
      sensorPositionCallback iv iq props direction range t = none) ∧
    (∀ (env : GeoEnv) (iv : VecInterp) (iq : QuatInterp) (props : SatProps)
        (direction : String) (t : Millis),
      beforeFirstSample props.positionSamples t = true →
      footprintPositionCallback env iv iq props direction t = none) ∧
    (∀ (env : GeoEnv) (iv : VecInterp) (iq : QuatInterp) (props : SatProps)
        (direction : String) (t : Millis) (pos : Vec3) (ori : Quat),
      getValue iv false props.positionSamples t = some pos →
      getValue iq false props.orientationSamples t = some ori →
      env.globePick ⟨pos, worldPointing ori direction⟩ = none →
      footprintPositionCallback env iv iq props direction t = none) := by
  refine ⟨?_, ?_, ?_⟩
  · intro iv iq props direction range t h
    have hz := getValue_none_of_beforeFirst iv false props.positionSamples t h
    simp [sensorPositionCallback, hz]
  · intro env iv iq props direction t h
    have hz := getValue_none_of_beforeFirst iv false props.positionSamples t h
    simp [footprintPositionCallback, hz]
  · intro env iv iq props direction t pos ori h1 h2 h3
    simp [footprintPositionCallback, h1, h2, h3]

/-- C7 witness: the theorem applied to a track whose first sample is at
t = 10 queried at t = 5, and to the Scenario C track with a globe pick that
misses. -/
theorem c7_undefined_is_explicit_witness :
    beforeFirstSample propsLate.positionSamples 5 = true ∧
    sensorPositionCallback constVecInterp constQuatInterp propsLate "+Z" 1000 5 = none ∧
    footprintPositionCallback testEnv constVecInterp constQuatInterp propsLate "+Z" 5 = none ∧
    (getValue constVecInterp false propsOrigin.positionSamples 0 = some ⟨0, 0, 0⟩ ∧
     getValue constQuatInterp false propsOrigin.orientationSamples 0 = some quatIdentity ∧
     testEnv.globePick ⟨⟨0, 0, 0⟩, worldPointing quatIdentity "+Z"⟩ = none ∧
     footprintPositionCallback testEnv constVecInterp constQuatInterp propsOrigin "+Z" 0 = none) :=
  ⟨by decide,
   c7_undefined_is_explicit.1 constVecInterp constQuatInterp propsLate "+Z" 1000 5 (by decide),
   c7_undefined_is_explicit.2.1 testEnv constVecInterp constQuatInterp propsLate "+Z" 5 (by decide),
   ⟨by decide, by decide, rfl,
    c7_undefined_is_explicit.2.2 testEnv constVecInterp constQuatInterp propsOrigin "+Z" 0
      ⟨0, 0, 0⟩ quatIdentity (by decide) (by decide) rfl⟩⟩

theorem removeSatellite_lookup_none (s : ServiceState) (id : String) :
    lookupEntry id (removeSatellite s id).entitiesMap = none := by
  cases hv : s.viewer with
  | none =>
    simp only [removeSatellite, hv]
    exact lookup_removeEntry_self id s.entitiesMap
  | some v =>
    simp only [removeSatellite, hv]
    exact lookup_removeEntry_self id s.entitiesMap

/-- C9 counterexample: destroy does not unregister every listener.  After
init and addSatellite, the composition add/remove handlers registered at
lines 100-103 are still attached after destroy — the code never calls
composition.off, so "all listeners are unregistered synchronously" is
false. -/
theorem c9_composition_listener_survives_destroy :
    (destroy (addSatellite (init emptyService 0) "sat1")).compositionListeners = ["sat1"] ∧
    (["sat1"] : List String) ≠ [] :=
  ⟨rfl, by decide⟩

/-- C9 as amended: a destroyed track accepts no late worker result
(applyProcessedData after removeSatellite is an exact no-op); after destroy
the bounds listener is detached, the worker is terminated and the map is
cleared, and every callback that can still fire — a live update, a worker
message, a composition add/remove (addSensor/removeSensor), or a bounds
event — leaves the destroyed state and its render clock unchanged, because
each of them guards on the nulled viewer, the cleared map or the detached
listener flag; the composition listeners themselves, however, stay
registered. -/
theorem c9_destroyed_state_inert :
    (∀ (env : GeoEnv) (s : ServiceState) (id : String) (payload : List ProcPoint),
      applyProcessedData env (removeSatellite s id) id payload = removeSatellite s id) ∧
    (∀ (env : GeoEnv) (s : ServiceState) (id : String) (d : Datum),
      updateSatellite env (destroy s) id d = destroy s) ∧
    (∀ (env : GeoEnv) (s : ServiceState) (id : String) (payload : List ProcPoint),
      applyProcessedData env (destroy s) id payload = destroy s) ∧
    (∀ (s : ServiceState) (a b : String), addSensor (destroy s) a b = destroy s) ∧
    (∀ (s : ServiceState) (a b : String), removeSensor (destroy s) a b = destroy s) ∧
    (∀ (s : ServiceState) (rt : Bool) (be : Millis), onBoundsEvent (destroy s) rt be = destroy s) ∧
    (∀ s : ServiceState, (destroy s).boundsActive = false ∧ (destroy s).workerAlive = false ∧
      (destroy s).entitiesMap = []) := by
  refine ⟨?_, fun env s id d => rfl, fun env s id payload => rfl,
    fun s a b => rfl, fun s a b => rfl, fun s rt be => rfl,
    fun s => ⟨rfl, rfl, rfl⟩⟩
  intro env s id payload
  unfold applyProcessedData
  rw [removeSatellite_lookup_none]

/-- C10: addSatellite with an id already present in the entity map is a
complete no-op — the guard at line 66 returns before the properties, the
renderer entity, the map entry, the composition listeners or the history
request are created, so the whole service state (including the listener and
request logs) is unchanged. -/
theorem c10_addSatellite_idempotent (s : ServiceState) (id : String)
    (h : (lookupEntry id s.entitiesMap).isSome = true) :
    addSatellite s id = s := by
  unfold addSatellite
  rw [if_pos h]

/-- C10 witness: the theorem applied to a service already owning the id. -/
theorem c10_addSatellite_idempotent_witness :
    (lookupEntry "sat" stateB.entitiesMap).isSome = true ∧
    addSatellite stateB "sat" = stateB :=
  ⟨by decide, c10_addSatellite_idempotent stateB "sat" (by decide)⟩
